import Mathlib

/-!
# Verification of the FYP face-recognition service

Shallow embedding of the identity-matching and embedding-persistence
subsystem of the repository (files `webapp_new.py`, `webapp.py`,
`db_supabase.py`, `main_supabase.py`) together with theorems settling the
frozen claims about it.

Modelling conventions:
* Python floats that only ever hold finitely-representable values computed
  by comparisons are modelled as rationals (`ℚ`).
* Database statements are modelled by explicit success flags in an
  environment record; a committed database is a record of row lists /
  row counts.  One transaction = one atomic update of that record.
* HTTP responses are modelled by small records holding the `ok` flag, the
  HTTP status and the machine-readable error code, exactly the fields the
  JSON bodies in the source carry.
-/

namespace FYP

/-- Encoding vector (the 128-dimensional face encoding), modelled as a list
of rationals. -/
abbrev Encoding := List ℚ

/-- Physical insertion strategies of the embedding store: the plain
`float8[]` numeric-array form and the native `::vector` literal form. -/
inductive Strategy where
  | array
  | vector
deriving DecidableEq, Repr

/-- Environment of one embedding-persist call: whether the plain-array
insert statement would succeed, whether the native-vector insert statement
would succeed, and the cached result of `_detect_vector_type()`. -/
structure EmbedEnv where
  arrayInsertOk : Bool
  vectorInsertOk : Bool
  hasVector : Bool
deriving DecidableEq, Repr

namespace WebappNew

/-- Model of `insert_embedding` in `webapp_new.py` (lines 293-328): first
attempt the `float8[]` array insert; if it raises and `_detect_vector_type()`
reported native vector support, attempt the `::vector` cast insert; if no
attempt succeeded, raise (`RuntimeError('embedding insert failed for all
strategies')`).  Returns the ordered list of attempted strategies and
whether the persist succeeded. -/
def insert_embedding (env : EmbedEnv) : List Strategy × Bool :=
  if env.arrayInsertOk then
    ([Strategy.array], true)
  else if env.hasVector then
    if env.vectorInsertOk then
      ([Strategy.array, Strategy.vector], true)
    else
      ([Strategy.array, Strategy.vector], false)
  else
    ([Strategy.array], false)

end WebappNew

namespace WebappLegacy

/-- Model of `insert_embedding` in `webapp.py` (lines 159-172): it loops
over the casts `('vector', 'float8[]')` in that order, returning on the
first insert that does not raise, and raises
(`RuntimeError('embedding insert failed for all casts')`) if both fail.
It never consults any vector-capability detection.  Returns the ordered
list of attempted strategies and whether the persist succeeded. -/
def insert_embedding (env : EmbedEnv) : List Strategy × Bool :=
  if env.vectorInsertOk then
    ([Strategy.vector], true)
  else if env.arrayInsertOk then
    ([Strategy.vector, Strategy.array], true)
  else
    ([Strategy.vector, Strategy.array], false)

end WebappLegacy

/-- Environment of one face-login request, as seen after an encoding has
been computed: the cached `_detect_vector_type()` result, the top row
returned by the DB helper `public.find_nearest_embeddings` (identifier of
the owning user and the raw Euclidean distance, which the DB may in
principle return as NULL), and whether the subsequent `users` lookup finds
a row. -/
structure LoginEnv where
  hasVector : Bool
  nearest : Option (String × Option ℚ)
  userFound : Bool
deriving DecidableEq, Repr

/-- Outcome of a face-login request (the machine-readable discriminants of
the JSON responses of `api_login_face`). -/
inductive LoginOutcome where
  /-- 501 `nearest_embeddings_not_supported`: native vector support missing. -/
  | unsupported
  /-- 200 `no_match`. -/
  | noMatch
  /-- 500 `db_error`: the SQL raised. -/
  | dbError
  /-- 404 `user_missing`. -/
  | userMissing
  /-- uncaught Python `TypeError` (comparison of `None` with a float). -/
  | pyError
  /-- 200 success with the matched user and the raw distance. -/
  | okUser (uid : String) (dist : ℚ)
deriving DecidableEq, Repr

namespace WebappNew

/-- Model of `api_login_face` in `webapp_new.py` (lines 962-1012) from the
point where an encoding exists.  Returns the outcome together with a flag
recording whether the nearest-neighbor query was issued.  The source first
checks `_detect_vector_type()` and returns 501 before opening any
connection; otherwise it calls `find_nearest_embeddings` with the requested
`limit` only and applies the caller-provided threshold in Python on the raw
distance: `if dist is None or float(dist) > threshold` reports `no_match`,
then the `users` row is looked up. -/
def api_login_face (env : LoginEnv) (threshold : ℚ) : LoginOutcome × Bool :=
  if env.hasVector = false then
    (LoginOutcome.unsupported, false)
  else
    match env.nearest with
    | Option.none => (LoginOutcome.noMatch, true)
    | some (uid, distOpt) =>
      match distOpt with
      | Option.none => (LoginOutcome.noMatch, true)
      | some dist =>
        if threshold < dist then (LoginOutcome.noMatch, true)
        else if env.userFound then (LoginOutcome.okUser uid dist, true)
        else (LoginOutcome.userMissing, true)

end WebappNew

namespace WebappLegacy

/-- Model of `api_login_face` in `webapp.py` (lines 337-373) from the point
where an encoding exists.  There is no capability check: the
`find_nearest_embeddings` query (whose vector literal carries a `::vector`
cast) is always issued; when the database lacks the `vector` type that
statement raises and the handler answers 500 `db_error`.  Otherwise the
`users` row is looked up first, and only then `if dist > threshold` decides
`no_match` caller-side; a NULL distance would raise an uncaught Python
`TypeError` at that comparison. -/
def api_login_face (env : LoginEnv) (threshold : ℚ) : LoginOutcome × Bool :=
  if env.hasVector = false then
    (LoginOutcome.dbError, true)
  else
    match env.nearest with
    | Option.none => (LoginOutcome.noMatch, true)
    | some (uid, distOpt) =>
      if env.userFound = false then (LoginOutcome.userMissing, true)
      else
        match distOpt with
        | Option.none => (LoginOutcome.pyError, true)
        | some dist =>
          if threshold < dist then (LoginOutcome.noMatch, true)
          else (LoginOutcome.okUser uid dist, true)

end WebappLegacy

/-- Abstraction of one decoded pixel buffer for the detection models: what
each of the three detector configurations appearing in the source finds on
it, as ordered lists of face-region identifiers.  `hogLocs` is the result
of the fast configuration (`model='hog'`, `number_of_times_to_upsample=0`),
`cnnLocs` of the slow high-recall configuration (`model='cnn'`,
`number_of_times_to_upsample=1`), and `largeLocs` of the single-pass
configuration used by the legacy extractor (`face_encodings` with
`model='large'` and the library's internal default detection). -/
structure DetectImage where
  hogLocs : List Nat
  cnnLocs : List Nat
  largeLocs : List Nat
deriving DecidableEq, Repr

namespace WebappNew

/-- Model of `compute_face_encoding` in `webapp_new.py` (lines 239-290):
run the fast hog detector; if it found zero regions, retry once with the
cnn detector; if still zero regions return `None`; otherwise compute the
per-region encodings (`enc` maps a region to its encoding, in region
order) and return the first one. -/
def compute_face_encoding (img : DetectImage) (enc : Nat → Encoding) : Option Encoding :=
  let locations := if img.hogLocs.isEmpty then img.cnnLocs else img.hogLocs
  match locations with
  | [] => Option.none
  | r :: _ => some (enc r)

end WebappNew

namespace WebappLegacy

/-- Model of `compute_face_encoding` in `webapp.py` (lines 146-158): a
single `face_recognition.face_encodings` call with the `large` model and no
detector escalation; zero encodings yield `None`, otherwise the first
encoding is returned. -/
def compute_face_encoding (img : DetectImage) (enc : Nat → Encoding) : Option Encoding :=
  match img.largeLocs with
  | [] => Option.none
  | r :: _ => some (enc r)

end WebappLegacy

/-- Value of a field of a JSON or form payload, as the login endpoint can
receive it: absent/null, a string, or a number.  Python form payloads
deliver every field as a string; JSON payloads can deliver numbers and
null. -/
inductive PyVal where
  | pynull
  | pystr (s : String)
  | pynum (q : ℚ)
deriving DecidableEq, Repr

/-- Python truthiness of such a value: `None` and the empty string and the
number 0 are falsy, everything else is truthy. -/
def pyTruthy : PyVal → Bool
  | PyVal.pynull => false
  | PyVal.pystr s => !(s == "")
  | PyVal.pynum q => !(q == 0)

/-- Accumulator pass of the decimal parser used to model Python's numeric
string conversion on digit-only literals. -/
def parseNatAux : List Char → Nat → Option Nat
  | [], acc => some acc
  | c :: cs, acc =>
    if c.isDigit then parseNatAux cs (acc * 10 + (c.toNat - 48)) else Option.none

/-- Decimal natural-number literal parser over a string's character list
(empty and non-digit strings fail, as Python's `float` / `int` raise on
them). -/
def parseNat (s : String) : Option Nat :=
  match s.toList with
  | [] => Option.none
  | c :: cs => parseNatAux (c :: cs) 0

/-- Model of Python `float(x)` restricted to the values this endpoint
feeds it: numbers pass through, strings are parsed (modelled for decimal
natural-number literals), and `float(None)` raises (`Option.none`). -/
def pyFloat : PyVal → Option ℚ
  | PyVal.pynull => Option.none
  | PyVal.pystr s => (parseNat s).map (fun n => (n : ℚ))
  | PyVal.pynum q => some q

/-- Model of Python `int(x)` restricted to the values this endpoint feeds
it: integers pass through, floats truncate toward zero, strings are parsed
(modelled for decimal natural-number literals), and `int(None)` raises. -/
def pyInt : PyVal → Option ℤ
  | PyVal.pynull => Option.none
  | PyVal.pystr s => (parseNat s).map (fun n => (n : ℤ))
  | PyVal.pynum q => some (q.num / (q.den : ℤ))

/-- Fields of an enrollment payload, after the handler's parsing: the
display name (`display_name` or `name`), the unique handle `username`, the
already-coerced consent flag, and the optional profile fields.  Optional
jsonb/array fields (`emergency_contact`, `medications`, `allergies`) are
modelled opaquely as strings. -/
structure RegPayload where
  display_name : String
  username : String
  email : Option String
  phone : Option String
  date_of_birth : Option String
  emergency_contact : Option String
  medications : Option String
  allergies : Option String
  accessibility_needs : Option String
  preferred_language : Option String
  consent : Bool
deriving DecidableEq, Repr

/-- Committed row of `public.users` (the columns the enrollment flows
touch). -/
structure UserRow where
  id : Nat
  username : String
  display_name : String
  email : Option String
  phone : Option String
  date_of_birth : Option String
  emergency_contact : Option String
  medications : Option String
  allergies : Option String
  accessibility_needs : Option String
  preferred_language : Option String
  created_at : Nat
deriving DecidableEq, Repr

/-- Committed database state: the `public.users` rows, and the number of
committed `public.user_images` and `public.embeddings` rows.  A transaction
either updates this record atomically (commit) or leaves it unchanged
(rollback). -/
structure Db where
  users : List UserRow
  images : Nat
  embeds : Nat
deriving DecidableEq, Repr

/-- JSON response of the enrollment-side handlers: `ok` flag, HTTP status,
machine-readable error code (`Option.none` when the body carries no error
key), and the `user_id` key when present. -/
structure RegResp where
  ok : Bool
  status : Nat
  error : Option String
  user_id : Option Nat
deriving DecidableEq, Repr

namespace WebappNew

/-- Fresh `public.users` row as the INSERT of `api_register` in
`webapp_new.py` (lines 669-700) writes it. -/
def newRow (fresh now : Nat) (p : RegPayload) : UserRow :=
  ⟨fresh, p.username, p.display_name, p.email, p.phone, p.date_of_birth,
   p.emergency_contact, p.medications, p.allergies, p.accessibility_needs,
   p.preferred_language, now⟩

/-- Effect of the `ON CONFLICT (username) DO UPDATE SET ...` clause of
`api_register` in `webapp_new.py`: every payload column except the handle
and `created_at` is overwritten by the new values. -/
def applyUpdate (v : UserRow) (p : RegPayload) : UserRow :=
  { v with
    display_name := p.display_name
    email := p.email
    phone := p.phone
    date_of_birth := p.date_of_birth
    emergency_contact := p.emergency_contact
    medications := p.medications
    allergies := p.allergies
    accessibility_needs := p.accessibility_needs
    preferred_language := p.preferred_language }

/-- Model of the identity upsert statement of `api_register` in
`webapp_new.py` (lines 669-701): insert keyed by the unique `username`,
updating the existing row's fields on conflict; `RETURNING id` yields the
existing row's identifier on conflict and the fresh one otherwise. -/
def upsert_user (users : List UserRow) (fresh now : Nat) (p : RegPayload) :
    List UserRow × Nat :=
  match users.find? (fun u => u.username == p.username) with
  | some u =>
    (users.map (fun v => if v.username == p.username then applyUpdate v p else v), u.id)
  | Option.none => (users ++ [newRow fresh now p], fresh)

/-- Control-relevant inputs of one register request: the parsed payload,
whether an image was supplied, whether the feature extractor finds a face
in it, and which of the three insert statements would raise. -/
structure RegFlow where
  payload : RegPayload
  imageProvided : Bool
  faceFound : Bool
  userInsertRaises : Bool
  imageInsertRaises : Bool
  embedInsertRaises : Bool
deriving DecidableEq, Repr

/-- Model of `api_register` in `webapp_new.py` (lines 608-781).  Step 1
commits the identity upsert in its own transaction (failure: 500
`db_error`, nothing written).  When an image was supplied, a second
transaction inserts the `user_images` row, then computes the encoding and,
if a face was found, runs `insert_embedding` — all three inside that one
second transaction; any exception there is caught, logged and rolled back,
and the handler still falls through to the 201 success response, which
carries no error indicator of any kind. -/
def api_register (db : Db) (fresh now : Nat) (f : RegFlow) : Db × RegResp :=
  if f.payload.display_name = "" ∨ f.payload.username = "" ∨ f.payload.consent = false then
    (db, ⟨false, 400, some "missing_fields", Option.none⟩)
  else if f.userInsertRaises then
    (db, ⟨false, 500, some "db_error", Option.none⟩)
  else
    let ups := upsert_user db.users fresh now f.payload
    let okResp : RegResp := ⟨true, 201, Option.none, some ups.2⟩
    if f.imageProvided = false then (⟨ups.1, db.images, db.embeds⟩, okResp)
    else if f.imageInsertRaises then (⟨ups.1, db.images, db.embeds⟩, okResp)
    else if f.faceFound = false then (⟨ups.1, db.images + 1, db.embeds⟩, okResp)
    else if f.embedInsertRaises then (⟨ups.1, db.images, db.embeds⟩, okResp)
    else (⟨ups.1, db.images + 1, db.embeds + 1⟩, okResp)

/-- Control-relevant inputs of one attach-image request. -/
structure AttachFlow where
  userIdProvided : Bool
  imageProvided : Bool
  faceFound : Bool
  imageInsertRaises : Bool
  embedInsertRaises : Bool
deriving DecidableEq, Repr

/-- Model of `api_attach_image` in `webapp_new.py` (lines 791-916): the
`user_images` insert runs and commits in its own transaction (failure: 500
`image_save_failed`); the encoding is then computed and, if a face was
found, persisted on a second, separate connection whose failure is caught,
rolled back and only logged — the handler still answers 201 success with
no error indicator. -/
def api_attach_image (db : Db) (f : AttachFlow) : Db × RegResp :=
  if f.userIdProvided = false then (db, ⟨false, 400, some "missing_user_id", Option.none⟩)
  else if f.imageProvided = false then (db, ⟨false, 400, some "missing_image", Option.none⟩)
  else if f.imageInsertRaises then (db, ⟨false, 500, some "image_save_failed", Option.none⟩)
  else if f.faceFound = false then
    (⟨db.users, db.images + 1, db.embeds⟩, ⟨true, 201, Option.none, Option.none⟩)
  else if f.embedInsertRaises then
    (⟨db.users, db.images + 1, db.embeds⟩, ⟨true, 201, Option.none, Option.none⟩)
  else
    (⟨db.users, db.images + 1, db.embeds + 1⟩, ⟨true, 201, Option.none, Option.none⟩)

/-- Placeholder payload of the provisional user `api_capture_face` creates
when no `user_id` was supplied (the source draws a random `temp_`
username). -/
def tempPayload : RegPayload :=
  ⟨"temp_user", "temp_user", Option.none, Option.none, Option.none, Option.none,
   Option.none, Option.none, Option.none, Option.none, true⟩

/-- Control-relevant inputs of one capture request. -/
structure CaptureFlow where
  imageProvided : Bool
  faceFound : Bool
  storageReady : Bool
  userIdProvided : Bool
  txnRaises : Bool
deriving DecidableEq, Repr

/-- Model of `api_capture_face` in `webapp_new.py` (lines 477-603): the
encoding is computed before any database write; when no face is found the
handler answers 200 with the distinct `no_face` error code and `ok: false`,
having committed nothing.  Otherwise a provisional user may be created
(its own transaction), and the `user_images` insert plus `insert_embedding`
share one final transaction whose failure is surfaced as 500 `db_error`. -/
def api_capture_face (db : Db) (fresh now : Nat) (f : CaptureFlow) : Db × RegResp :=
  if f.imageProvided = false then (db, ⟨false, 400, some "missing_image", Option.none⟩)
  else if f.faceFound = false then (db, ⟨false, 200, some "no_face", Option.none⟩)
  else if f.storageReady = false then
    (db, ⟨false, 500, some "storage_not_configured", Option.none⟩)
  else
    let users1 := if f.userIdProvided then db.users else db.users ++ [newRow fresh now tempPayload]
    if f.txnRaises then (⟨users1, db.images, db.embeds⟩, ⟨false, 500, some "db_error", Option.none⟩)
    else (⟨users1, db.images + 1, db.embeds + 1⟩, ⟨true, 201, Option.none, Option.none⟩)

/-- Allowed update keys of `api_update_user` in `webapp_new.py`
(line 1106). -/
def allowed_update_fields : List String :=
  ["display_name", "email", "phone", "date_of_birth", "emergency_contact",
   "medications", "allergies", "accessibility_needs", "preferred_language"]

/-- Updates dictionary built by `api_update_user`: the allowed keys present
in the payload, with their values. -/
def updates_of (payload : List (String × String)) : List (String × String) :=
  allowed_update_fields.filterMap (fun k => (payload.lookup k).map (fun v => (k, v)))

/-- Ownership check of the owner-only endpoints (`webapp_new.py` lines
1048-1051, 1115-1118, 1175-1178): the resolved caller claim must be truthy
and equal to the target identifier, otherwise 403 `forbidden`. -/
def ownership_ok (actor : Option String) (target : String) : Bool :=
  match actor with
  | Option.none => false
  | some a => if a = "" then false else a == target

/-- Outcome discriminants of the owner-only endpoints, paired below with a
flag recording whether any database statement touching the target user's
rows was executed. -/
inductive OwnerResult where
  | forbidden
  | no_updates
  | user_missing
  | okDone
deriving DecidableEq, Repr

/-- Model of `api_get_user` in `webapp_new.py` (lines 1045-1099): the
ownership check runs before any database access; only then is the user row
read. -/
def api_get_user (actor : Option String) (target : String) (userExists : Bool) :
    OwnerResult × Bool :=
  if ownership_ok actor target = false then (OwnerResult.forbidden, false)
  else if userExists then (OwnerResult.okDone, true)
  else (OwnerResult.user_missing, true)

/-- Model of `api_update_user` in `webapp_new.py` (lines 1102-1167): the
handler first filters the payload to the allowed keys and answers 400
`no_updates` when none remain; only then does it run the ownership check,
and only after that the UPDATE statement. -/
def api_update_user (payload : List (String × String)) (actor : Option String)
    (target : String) (userExists : Bool) : OwnerResult × Bool :=
  if (updates_of payload).isEmpty then (OwnerResult.no_updates, false)
  else if ownership_ok actor target = false then (OwnerResult.forbidden, false)
  else if userExists then (OwnerResult.okDone, true)
  else (OwnerResult.user_missing, true)

/-- Model of `api_delete_user` in `webapp_new.py` (lines 1170-1225): the
ownership check runs before any database access; only then are the
dependent rows and the user row deleted. -/
def api_delete_user (actor : Option String) (target : String) (userExists : Bool) :
    OwnerResult × Bool :=
  if ownership_ok actor target = false then (OwnerResult.forbidden, false)
  else if userExists then (OwnerResult.okDone, true)
  else (OwnerResult.user_missing, true)

end WebappNew

namespace WebappLegacy

/-- Fresh `public.users` row as the INSERT of `api_register` in `webapp.py`
(lines 281-289) writes it (only display name, handle, email and phone). -/
def newRow (fresh now : Nat) (p : RegPayload) : UserRow :=
  ⟨fresh, p.username, p.display_name, p.email, p.phone, Option.none, Option.none,
   Option.none, Option.none, Option.none, Option.none, now⟩

/-- Model of the identity upsert of `api_register` in `webapp.py`: on a
`username` conflict only `display_name` is overwritten. -/
def upsert_user (users : List UserRow) (fresh now : Nat) (p : RegPayload) :
    List UserRow × Nat :=
  match users.find? (fun u => u.username == p.username) with
  | some u =>
    (users.map (fun v =>
      if v.username == p.username then { v with display_name := p.display_name } else v), u.id)
  | Option.none => (users ++ [newRow fresh now p], fresh)

/-- Model of `api_register` in `webapp.py` (lines 244-323).  The image is
required; the encoding is computed before any database write and a missing
face answers 200 `no_face` with nothing committed.  The identity upsert,
the `user_images` insert and `insert_embedding` all share one single
transaction: any raise rolls back every step and answers 500 `db_error`. -/
def api_register (db : Db) (fresh now : Nat) (f : WebappNew.RegFlow) : Db × RegResp :=
  if f.payload.display_name = "" ∨ f.payload.username = "" ∨ f.payload.consent = false ∨
      f.imageProvided = false then
    (db, ⟨false, 400, some "missing_fields", Option.none⟩)
  else if f.faceFound = false then
    (db, ⟨false, 200, some "no_face", Option.none⟩)
  else if f.userInsertRaises ∨ f.imageInsertRaises ∨ f.embedInsertRaises then
    (db, ⟨false, 500, some "db_error", Option.none⟩)
  else
    let ups := upsert_user db.users fresh now f.payload
    (⟨ups.1, db.images + 1, db.embeds + 1⟩, ⟨true, 201, Option.none, some ups.2⟩)

end WebappLegacy

/-- Persisted user record as the attendance helper reads it (the
`last_attendance_time` column, parsed to seconds; `Option.none` models both
a missing user and a NULL timestamp). -/
structure AttendanceUser where
  last_attendance_time : Option ℚ
deriving DecidableEq, Repr

namespace DbSupabase

/-- Model of `check_recent_attendance` in `db_supabase.py` (lines 158-170):
true (attendance is "recent", so the event should be suppressed) exactly
when the user exists, has a parseable `last_attendance_time`, and strictly
fewer than `minSeconds` seconds elapsed since it; a missing user, missing
timestamp or parse failure yields false.  The caller passes `min_seconds`
with default 30. -/
def check_recent_attendance (user : Option AttendanceUser) (now minSeconds : ℚ) : Bool :=
  match user with
  | Option.none => false
  | some u =>
    match u.last_attendance_time with
    | Option.none => false
    | some t => decide (now - t < minSeconds)

end DbSupabase

namespace MainSupabase

/-- Model of the throttling gate of `main_loop` in `main_supabase.py`
(lines 79-87): the loop keeps an in-process dictionary `last_seen` (empty
at process start), reads `last = last_seen.get(user_id, 0)` and logs the
event only when `now - last > 30`. -/
def main_loop_allows (lastSeen : List (String × ℚ)) (uid : String) (now : ℚ) : Bool :=
  decide (30 < now - ((lastSeen.lookup uid).getD 0))

end MainSupabase

/-- Model of `threshold = float(payload.get('threshold') or 0.5)` in
`api_login_face` (`webapp_new.py` line 966, `webapp.py` line 341): the
`or` keeps the value when truthy and otherwise substitutes 0.5, then
`float` converts. -/
def threshold_param (v : PyVal) : Option ℚ :=
  pyFloat (if pyTruthy v then v else PyVal.pynum (1 / 2))

/-- Model of `limit = int(payload.get('limit') or 1)` in `api_login_face`
(`webapp_new.py` line 967, `webapp.py` line 342). -/
def limit_param (v : PyVal) : Option ℤ :=
  pyInt (if pyTruthy v then v else PyVal.pynum 1)

/-- Concrete valid enrollment payload used to instantiate the theorems. -/
def samplePayload : RegPayload :=
  ⟨"Alice", "alice", Option.none, Option.none, Option.none, Option.none,
   Option.none, Option.none, Option.none, Option.none, true⟩

/-- Second enrollment payload for the same handle with different display
fields. -/
def samplePayload2 : RegPayload :=
  ⟨"Alicia", "alice", some "alicia@example.org", some "123", Option.none,
   Option.none, Option.none, Option.none, Option.none, some "en", true⟩

/-- Register request with an image supplied, a face found and no insert
failing: the fully successful enrollment path. -/
def happyFlow (p : RegPayload) : WebappNew.RegFlow :=
  ⟨p, true, true, false, false, false⟩

end FYP

open FYP

/-- C2 counterexample: the claim fails on the embedding write path of
`webapp.py` (`insert_embedding`, lines 159-172).  In an environment where
the plain-array insert would succeed, native vector support is detected and
the vector insert succeeds, that write path performs exactly one insert
attempt and it uses the native `vector` cast, not the plain ordered numeric
array: the vector form is attempted first, contradicting the claimed order. -/
theorem c2_counterexample :
    WebappLegacy.insert_embedding ⟨true, true, true⟩ = ([Strategy.vector], true) ∧
    (WebappLegacy.insert_embedding ⟨true, true, true⟩).1.head? ≠ some Strategy.array := by
  decide

/-- C2 amended: the claimed ordered fallback holds for the current write
path, `insert_embedding` in `webapp_new.py`: the first attempted strategy is
always the plain array insert; the native vector form is attempted exactly
when the array insert fails and native vector support was detected; and the
persist succeeds exactly when the array insert succeeds or (vector support
detected and the vector insert succeeds) — otherwise the embedding-persist
error is raised.  The legacy path `insert_embedding` in `webapp.py` instead
attempts the `vector` cast first and falls back to the array form, without
consulting capability detection. -/
theorem c2_amended (env : EmbedEnv) :
    (WebappNew.insert_embedding env).1.head? = some Strategy.array ∧
    ((WebappNew.insert_embedding env).1 = [Strategy.array, Strategy.vector] ↔
      env.arrayInsertOk = false ∧ env.hasVector = true) ∧
    ((WebappNew.insert_embedding env).2 = true ↔
      env.arrayInsertOk = true ∨ (env.hasVector = true ∧ env.vectorInsertOk = true)) ∧
    (WebappLegacy.insert_embedding env).1.head? = some Strategy.vector := by
  rcases env with ⟨a, v, h⟩
  rcases a <;> rcases v <;> rcases h <;> decide

/-- C3: in the face-login flow, once the nearest-neighbor query has
returned a raw distance, the caller-side code of both login endpoints
accepts exactly when the distance is at most the caller-provided threshold:
a distance equal to the threshold is accepted, a strictly larger one is
reported as `no_match`.  The comparison happens in the endpoint on the raw
distance the query returned (`webapp_new.py` line 994, `webapp.py` line
371), not inside the nearest-neighbor function. -/
theorem c3_threshold_boundary (env : LoginEnv) (uid : String) (d t : ℚ)
    (hv : env.hasVector = true) (hn : env.nearest = some (uid, some d))
    (hu : env.userFound = true) :
    ((WebappNew.api_login_face env t).1 = LoginOutcome.okUser uid d ↔ d ≤ t) ∧
    ((WebappNew.api_login_face env t).1 = LoginOutcome.noMatch ↔ t < d) ∧
    ((WebappLegacy.api_login_face env t).1 = LoginOutcome.okUser uid d ↔ d ≤ t) ∧
    ((WebappLegacy.api_login_face env t).1 = LoginOutcome.noMatch ↔ t < d) := by
  rcases env with ⟨hvf, nf, uf⟩
  subst hv
  subst hn
  subst hu
  rcases lt_or_le t d with h | h
  · have hd : ¬ d ≤ t := not_le.mpr h
    simp [WebappNew.api_login_face, WebappLegacy.api_login_face, h, hd]
  · have ht : ¬ t < d := not_lt.mpr h
    simp [WebappNew.api_login_face, WebappLegacy.api_login_face, ht, h]

/-- C3 witness: at a stored nearest distance exactly equal to the
caller-provided threshold 1/2, both login endpoints accept the match. -/
theorem c3_witness :
    (WebappNew.api_login_face ⟨true, some ("u1", some (1 / 2)), true⟩ (1 / 2)).1 =
      LoginOutcome.okUser "u1" (1 / 2) ∧
    (WebappLegacy.api_login_face ⟨true, some ("u1", some (1 / 2)), true⟩ (1 / 2)).1 =
      LoginOutcome.okUser "u1" (1 / 2) := by
  have h := c3_threshold_boundary ⟨true, some ("u1", some (1 / 2)), true⟩ "u1" (1 / 2) (1 / 2)
    rfl rfl rfl
  exact ⟨h.1.mpr le_rfl, h.2.2.1.mpr le_rfl⟩

/-- C4 counterexample: the claim fails on the login path of `webapp.py`
(`api_login_face`, lines 337-373).  With native vector support unavailable,
that endpoint still issues the nearest-neighbor query (second component
`true`), and the request fails with `db_error` from the raised SQL rather
than with an unsupported-operation error. -/
theorem c4_counterexample :
    WebappLegacy.api_login_face ⟨false, Option.none, false⟩ (1 / 2) =
      (LoginOutcome.dbError, true) ∧
    (WebappLegacy.api_login_face ⟨false, Option.none, false⟩ (1 / 2)).1 ≠
      LoginOutcome.unsupported := by
  decide

/-- C4 amended: the claimed guard holds for the current login endpoint,
`api_login_face` in `webapp_new.py`: whenever the database's native vector
type is unavailable, every login request fails with the
unsupported-operation discriminant (501 `nearest_embeddings_not_supported`)
and the nearest-neighbor query is never issued; no linear-scan fallback
exists.  The legacy endpoint in `webapp.py` has no such guard: it issues
the query unconditionally and surfaces the failure as a `db_error`. -/
theorem c4_amended (env : LoginEnv) (t : ℚ) (h : env.hasVector = false) :
    WebappNew.api_login_face env t = (LoginOutcome.unsupported, false) ∧
    (WebappLegacy.api_login_face env t).2 = true := by
  rcases env with ⟨hvf, nf, uf⟩
  cases h
  constructor
  · simp [WebappNew.api_login_face]
  · simp [WebappLegacy.api_login_face]

/-- C4 witness: with native vector support absent, the current login
endpoint answers 501 without issuing the nearest query. -/
theorem c4_witness :
    WebappNew.api_login_face ⟨false, some ("u1", some 0), true⟩ (1 / 2) =
      (LoginOutcome.unsupported, false) :=
  (c4_amended ⟨false, some ("u1", some 0), true⟩ (1 / 2) rfl).1

/-- C10 counterexample: the claim's impossibility part fails.  A caller can
request a distance threshold of exactly 0 and a result limit of exactly 0:
the string `"0"` (the form in which every form-encoded request and any
string-typed JSON field arrives) is truthy in Python, so it is not replaced
by the defaults and is then parsed to the number 0 by `float` / `int`. -/
theorem c10_counterexample :
    threshold_param (PyVal.pystr "0") = some 0 ∧
    limit_param (PyVal.pystr "0") = some 0 := by
  constructor <;> rfl

/-- C10 amended: every falsy payload value — absent/null, the empty
string, and the number 0 — is silently replaced by the defaults
(threshold 1/2, limit 1); but the replacement is decided by Python
truthiness, so the string `"0"` is kept and coerces to threshold 0 /
limit 0, making those values reachable after all. -/
theorem c10_amended (v : PyVal) (h : pyTruthy v = false) :
    threshold_param v = some (1 / 2) ∧ limit_param v = some 1 := by
  constructor
  · simp [threshold_param, h, pyFloat]
  · simp [limit_param, h, pyInt]

/-- C10 witness: a null threshold and limit are replaced by the defaults
0.5 and 1. -/
theorem c10_witness :
    threshold_param PyVal.pynull = some (1 / 2) ∧ limit_param PyVal.pynull = some 1 :=
  c10_amended PyVal.pynull rfl

/-- C5 counterexample: the claim fails on the feature extractor of
`webapp.py` (`compute_face_encoding`, lines 146-158).  On a pixel buffer
where its single-pass detection finds no region, that extractor returns
`None` without ever retrying with the slower high-recall detector — even
though that detector finds a region (the two-stage extractor of
`webapp_new.py` returns its encoding on the very same buffer). -/
theorem c5_counterexample :
    WebappLegacy.compute_face_encoding ⟨[], [7], []⟩ (fun r => [(r : ℚ)]) = Option.none ∧
    WebappNew.compute_face_encoding ⟨[], [7], []⟩ (fun r => [(r : ℚ)]) = some [(7 : ℚ)] := by
  constructor <;> rfl

/-- C5 amended: the claimed two-stage escalation holds for the current
extractor, `compute_face_encoding` in `webapp_new.py`: the fast hog
detector runs first and its regions are used whenever it finds any; the
slow cnn detector is consulted exactly when the fast one found zero
regions; when both find zero regions the result is the NotFound outcome
`None` without raising; and whenever regions were found the encoding of
the first detected region is returned.  The legacy extractor in
`webapp.py` instead performs a single detection-and-encoding pass with no
escalation. -/
theorem c5_amended (img : DetectImage) (enc : Nat → Encoding) :
    (img.hogLocs = [] → img.cnnLocs = [] →
      WebappNew.compute_face_encoding img enc = Option.none) ∧
    (∀ r rs, img.hogLocs = r :: rs →
      WebappNew.compute_face_encoding img enc = some (enc r)) ∧
    (∀ r rs, img.hogLocs = [] → img.cnnLocs = r :: rs →
      WebappNew.compute_face_encoding img enc = some (enc r)) ∧
    (∀ r rs, img.largeLocs = r :: rs →
      WebappLegacy.compute_face_encoding img enc = some (enc r)) := by
  refine ⟨fun h1 h2 => ?_, fun r rs h => ?_, fun r rs h1 h2 => ?_, fun r rs h => ?_⟩
  · simp [WebappNew.compute_face_encoding, h1, h2]
  · simp [WebappNew.compute_face_encoding, h]
  · simp [WebappNew.compute_face_encoding, h1, h2]
  · simp [WebappLegacy.compute_face_encoding, h]

/-- C5 witness: on a buffer where the fast detector finds nothing and the
slow detector finds region 3, the current extractor escalates and returns
region 3's encoding; on a buffer where the fast detector finds regions 1
and 2, it returns region 1's encoding without escalating. -/
theorem c5_witness :
    WebappNew.compute_face_encoding ⟨[], [3], []⟩ (fun r => [(r : ℚ)]) = some [(3 : ℚ)] ∧
    WebappNew.compute_face_encoding ⟨[1, 2], [], []⟩ (fun r => [(r : ℚ)]) = some [(1 : ℚ)] :=
  ⟨(c5_amended ⟨[], [3], []⟩ (fun r => [(r : ℚ)])).2.2.1 3 [] rfl rfl,
   (c5_amended ⟨[1, 2], [], []⟩ (fun r => [(r : ℚ)])).2.1 1 [2] rfl⟩

/-- C1 counterexample: the claim fails on `api_register` of
`webapp_new.py`.  On an enrollment whose embedding insert raises after the
identity commit, the `user_images` row does not remain committed — it is
rolled back together with the failed embedding insert, because the image
insert and the embedding insert share the second transaction (lines
746-777) — and the failure is not surfaced: the handler still answers the
plain 201 success (`ok: true`, no error key).  Final state: one committed
user row, zero image rows, zero embedding rows. -/
theorem c1_counterexample :
    WebappNew.api_register ⟨[], 0, 0⟩ 1 5 ⟨samplePayload, true, true, false, false, true⟩ =
      (⟨[WebappNew.newRow 1 5 samplePayload], 0, 0⟩, ⟨true, 201, Option.none, some 1⟩) ∧
    (WebappNew.api_register ⟨[], 0, 0⟩ 1 5
      ⟨samplePayload, true, true, false, false, true⟩).1.images = 0 ∧
    (WebappNew.api_register ⟨[], 0, 0⟩ 1 5
      ⟨samplePayload, true, true, false, false, true⟩).2.error = Option.none := by
  decide

/-- C1 amended: when the embedding insert raises, the identity row (its own
already-committed transaction) always survives, but in `api_register` the
image row of the attempt is rolled back with the failing embedding insert
(they share one transaction) and the failure is only logged, never
surfaced — the response is the plain success.  In `api_attach_image` the
image row, committed earlier in its own transaction, does survive an
embedding-persist failure, which again is only logged (success response).
In the legacy `webapp.py` register flow all three steps share one
transaction, so an embedding-insert failure rolls back the identity and
image rows too and is surfaced as a 500 `db_error`. -/
theorem c1_amended :
    (∀ (db : Db) (fresh now : Nat) (f : WebappNew.RegFlow),
      f.payload.display_name ≠ "" → f.payload.username ≠ "" → f.payload.consent = true →
      f.userInsertRaises = false → f.imageProvided = true → f.imageInsertRaises = false →
      f.faceFound = true → f.embedInsertRaises = true →
      WebappNew.api_register db fresh now f =
        (⟨(WebappNew.upsert_user db.users fresh now f.payload).1, db.images, db.embeds⟩,
         ⟨true, 201, Option.none, some (WebappNew.upsert_user db.users fresh now f.payload).2⟩)) ∧
    (∀ (db : Db) (f : WebappNew.AttachFlow),
      f.userIdProvided = true → f.imageProvided = true → f.imageInsertRaises = false →
      f.faceFound = true → f.embedInsertRaises = true →
      WebappNew.api_attach_image db f =
        (⟨db.users, db.images + 1, db.embeds⟩, ⟨true, 201, Option.none, Option.none⟩)) ∧
    (∀ (db : Db) (fresh now : Nat) (f : WebappNew.RegFlow),
      f.payload.display_name ≠ "" → f.payload.username ≠ "" → f.payload.consent = true →
      f.imageProvided = true → f.faceFound = true → f.embedInsertRaises = true →
      WebappLegacy.api_register db fresh now f =
        (db, ⟨false, 500, some "db_error", Option.none⟩)) := by
  refine ⟨?_, ?_, ?_⟩
  · intro db fresh now f hd hu hc hur hip hir hff her
    rcases f with ⟨p, ip, ff, ur, ir, er⟩
    simp only at hd hu hc hur hip hir hff her
    subst hur hip hir hff her
    simp [WebappNew.api_register, hd, hu, hc]
  · intro db f huip hip hir hff her
    rcases f with ⟨uip, ip, ff, ir, er⟩
    simp only at huip hip hir hff her
    subst huip hip hir hff her
    simp [WebappNew.api_attach_image]
  · intro db fresh now f hd hu hc hip hff her
    rcases f with ⟨p, ip, ff, ur, ir, er⟩
    simp only at hd hu hc hip hff her
    subst hip hff her
    simp [WebappLegacy.api_register, hd, hu, hc]

/-- C1 witness: concrete instances of the three amended conclusions — a
failing embedding insert leaves the register flow with the identity
committed, the image rolled back and a success response; leaves the
attach flow with the image committed and a success response; and makes the
legacy register flow roll back everything and surface `db_error`. -/
theorem c1_witness :
    WebappNew.api_register ⟨[], 3, 4⟩ 9 0 ⟨samplePayload, true, true, false, false, true⟩ =
      (⟨(WebappNew.upsert_user [] 9 0 samplePayload).1, 3, 4⟩,
       ⟨true, 201, Option.none, some (WebappNew.upsert_user [] 9 0 samplePayload).2⟩) ∧
    WebappNew.api_attach_image ⟨[], 3, 4⟩ ⟨true, true, true, false, true⟩ =
      (⟨[], 3 + 1, 4⟩, ⟨true, 201, Option.none, Option.none⟩) ∧
    WebappLegacy.api_register ⟨[], 3, 4⟩ 9 0 ⟨samplePayload, true, true, false, false, true⟩ =
      (⟨[], 3, 4⟩, ⟨false, 500, some "db_error", Option.none⟩) :=
  ⟨c1_amended.1 ⟨[], 3, 4⟩ 9 0 ⟨samplePayload, true, true, false, false, true⟩
    (by decide) (by decide) rfl rfl rfl rfl rfl rfl,
   c1_amended.2.1 ⟨[], 3, 4⟩ ⟨true, true, true, false, true⟩ rfl rfl rfl rfl rfl,
   c1_amended.2.2 ⟨[], 3, 4⟩ 9 0 ⟨samplePayload, true, true, false, false, true⟩
    (by decide) (by decide) rfl rfl rfl rfl⟩

/-- C6 counterexample: the claim fails on `api_register` of
`webapp_new.py`.  On an enrollment whose extractor returns NotFound, the
identity and image rows are indeed committed and the handler reports
success — but the 201 response is the plain success body with no error key
at all: no distinct `no_face` indicator is signalled. -/
theorem c6_counterexample :
    WebappNew.api_register ⟨[], 0, 0⟩ 1 5 ⟨samplePayload, true, false, false, false, false⟩ =
      (⟨[WebappNew.newRow 1 5 samplePayload], 1, 0⟩, ⟨true, 201, Option.none, some 1⟩) ∧
    (WebappNew.api_register ⟨[], 0, 0⟩ 1 5
      ⟨samplePayload, true, false, false, false, false⟩).2.error = Option.none := by
  decide

/-- C6 amended: when the extractor returns NotFound during `api_register`,
the identity and image rows are committed and the response reports plain
success, indistinguishable from a full enrollment — the embedding insert is
silently skipped and no `no_face` indicator is signalled.  The distinct
`no_face` indicator exists only in the flows that compute the encoding
before writing anything (`api_capture_face` and the legacy `webapp.py`
register), and there it accompanies an `ok: false` response with no row
committed at all. -/
theorem c6_amended :
    (∀ (db : Db) (fresh now : Nat) (f : WebappNew.RegFlow),
      f.payload.display_name ≠ "" → f.payload.username ≠ "" → f.payload.consent = true →
      f.userInsertRaises = false → f.imageProvided = true → f.imageInsertRaises = false →
      f.faceFound = false →
      WebappNew.api_register db fresh now f =
        (⟨(WebappNew.upsert_user db.users fresh now f.payload).1, db.images + 1, db.embeds⟩,
         ⟨true, 201, Option.none, some (WebappNew.upsert_user db.users fresh now f.payload).2⟩)) ∧
    (∀ (db : Db) (fresh now : Nat) (f : WebappNew.CaptureFlow),
      f.imageProvided = true → f.faceFound = false →
      WebappNew.api_capture_face db fresh now f =
        (db, ⟨false, 200, some "no_face", Option.none⟩)) ∧
    (∀ (db : Db) (fresh now : Nat) (f : WebappNew.RegFlow),
      f.payload.display_name ≠ "" → f.payload.username ≠ "" → f.payload.consent = true →
      f.imageProvided = true → f.faceFound = false →
      WebappLegacy.api_register db fresh now f =
        (db, ⟨false, 200, some "no_face", Option.none⟩)) := by
  refine ⟨?_, ?_, ?_⟩
  · intro db fresh now f hd hu hc hur hip hir hff
    rcases f with ⟨p, ip, ff, ur, ir, er⟩
    simp only at hd hu hc hur hip hir hff
    subst hur hip hir hff
    simp [WebappNew.api_register, hd, hu, hc]
  · intro db fresh now f hip hff
    rcases f with ⟨ip, ff, sr, uip, tr⟩
    simp only at hip hff
    subst hip hff
    simp [WebappNew.api_capture_face]
  · intro db fresh now f hd hu hc hip hff
    rcases f with ⟨p, ip, ff, ur, ir, er⟩
    simp only at hd hu hc hip hff
    subst hip hff
    simp [WebappLegacy.api_register, hd, hu, hc]

/-- C6 witness: a NotFound extraction leaves the register flow with both
rows committed and a plain success response, and makes the capture flow
answer the distinct `no_face` error with nothing committed. -/
theorem c6_witness :
    WebappNew.api_register ⟨[], 3, 4⟩ 9 0 ⟨samplePayload, true, false, false, false, false⟩ =
      (⟨(WebappNew.upsert_user [] 9 0 samplePayload).1, 3 + 1, 4⟩,
       ⟨true, 201, Option.none, some (WebappNew.upsert_user [] 9 0 samplePayload).2⟩) ∧
    WebappNew.api_capture_face ⟨[], 3, 4⟩ 9 0 ⟨true, false, true, true, false⟩ =
      (⟨[], 3, 4⟩, ⟨false, 200, some "no_face", Option.none⟩) :=
  ⟨c6_amended.1 ⟨[], 3, 4⟩ 9 0 ⟨samplePayload, true, false, false, false, false⟩
    (by decide) (by decide) rfl rfl rfl rfl rfl,
   c6_amended.2.1 ⟨[], 3, 4⟩ 9 0 ⟨true, false, true, true, false⟩ rfl rfl⟩

/-- C7 counterexample: the claim fails on the throttle that actually gates
logging, the `last_seen` dictionary of `main_loop` in `main_supabase.py`.
An identity whose persisted last attendance timestamp is 5 seconds old
(strictly less than 30, so the claim requires suppression, and the
persisted-timestamp helper `check_recent_attendance` indeed reports it as
recent) is nevertheless allowed and logged by a freshly started
recognition loop, because the gate consults only its in-process map, which
is empty at process start. -/
theorem c7_counterexample :
    MainSupabase.main_loop_allows [] "u1" 100 = true ∧
    DbSupabase.check_recent_attendance (some ⟨some 95⟩) 100 30 = true := by
  constructor
  · norm_num [MainSupabase.main_loop_allows, List.lookup]
  · norm_num [DbSupabase.check_recent_attendance]

/-- C7 amended: the persisted-timestamp helper `check_recent_attendance`
matches the claimed contract — it reports "recent" (suppress) exactly when
the stored timestamp is strictly less than `min_seconds` (default 30)
seconds old, and "allow" for an absent user or timestamp, holding no
in-process state — but it has no caller; the recognition loop's throttle
is an in-process `last_seen` map: it allows an identity exactly when
strictly more than 30 seconds have passed since this process last logged
it, so it suppresses at exactly 30 seconds and ignores persisted history
(a fresh process allows any identity as soon as `now > 30`). -/
theorem c7_amended :
    (∀ now t m : ℚ,
      DbSupabase.check_recent_attendance (some ⟨some t⟩) now m = decide (now - t < m)) ∧
    (∀ now m : ℚ, DbSupabase.check_recent_attendance Option.none now m = false) ∧
    (∀ now m : ℚ, DbSupabase.check_recent_attendance (some ⟨Option.none⟩) now m = false) ∧
    (∀ t : ℚ, MainSupabase.main_loop_allows [("u", t)] "u" (t + 30) = false) ∧
    (∀ (uid : String) (now : ℚ), MainSupabase.main_loop_allows [] uid now = decide (30 < now)) := by
  refine ⟨fun now t m => rfl, fun now m => rfl, fun now m => rfl, fun t => ?_, fun uid now => ?_⟩
  · have h : t + 30 - t = (30 : ℚ) := by ring
    simp [MainSupabase.main_loop_allows, List.lookup, h]
  · simp [MainSupabase.main_loop_allows, List.lookup]

/-- C8 counterexample: the claim fails on `api_update_user` of
`webapp_new.py`.  An update request for identity `A` presented with
identity `B`'s claim but containing no updatable field fails with 400
`no_updates`, not with the forbidden discriminant: the handler checks the
updates dictionary before the ownership check (lines 1106-1118).  No
database statement runs (second component `false`), but the claimed 403 is
not produced. -/
theorem c8_counterexample :
    WebappNew.api_update_user [("username", "hacker")] (some "B") "A" true =
      (WebappNew.OwnerResult.no_updates, false) ∧
    WebappNew.OwnerResult.no_updates ≠ WebappNew.OwnerResult.forbidden := by
  decide

/-- C8 amended: for every owner-only request whose presented claim is
absent, empty or different from the target identifier, no database
statement touching the target's record runs and nothing is mutated or
returned; the read and delete endpoints, and every update request carrying
at least one updatable field, fail with the forbidden discriminant, while
an update request with no updatable field fails with 400 `no_updates`
before the ownership check is even reached. -/
theorem c8_amended (payload : List (String × String)) (actor : Option String)
    (target : String) (userExists : Bool)
    (h : WebappNew.ownership_ok actor target = false) :
    WebappNew.api_get_user actor target userExists = (WebappNew.OwnerResult.forbidden, false) ∧
    WebappNew.api_delete_user actor target userExists = (WebappNew.OwnerResult.forbidden, false) ∧
    ((WebappNew.updates_of payload).isEmpty = false →
      WebappNew.api_update_user payload actor target userExists =
        (WebappNew.OwnerResult.forbidden, false)) ∧
    (WebappNew.api_update_user payload actor target userExists).2 = false := by
  refine ⟨?_, ?_, fun hne => ?_, ?_⟩
  · simp [WebappNew.api_get_user, h]
  · simp [WebappNew.api_delete_user, h]
  · simp [WebappNew.api_update_user, hne, h]
  · by_cases he : (WebappNew.updates_of payload).isEmpty <;>
      simp [WebappNew.api_update_user, he, h]

/-- C8 witness: a read and an update of user `A` presented with claim `B`
are both rejected with the forbidden discriminant and touch no row. -/
theorem c8_witness :
    WebappNew.api_get_user (some "B") "A" true = (WebappNew.OwnerResult.forbidden, false) ∧
    WebappNew.api_update_user [("display_name", "X")] (some "B") "A" true =
      (WebappNew.OwnerResult.forbidden, false) :=
  ⟨(c8_amended [("display_name", "X")] (some "B") "A" true (by decide)).1,
   (c8_amended [("display_name", "X")] (some "B") "A" true (by decide)).2.2.1 (by decide)⟩

/-- Helper: a `find?` miss on the first list of an append passes through to
the second list. -/
theorem find?_append_of_none {α : Type} {l₁ l₂ : List α} {p : α → Bool}
    (h : l₁.find? p = Option.none) : (l₁ ++ l₂).find? p = l₂.find? p := by
  induction l₁ with
  | nil => simp
  | cons a l ih =>
    rw [List.cons_append]
    cases hpa : p a with
    | true =>
      rw [List.find?_cons_of_pos _ hpa] at h
      exact absurd h (by simp)
    | false =>
      rw [List.find?_cons_of_neg _ (by simp [hpa])] at h
      rw [List.find?_cons_of_neg _ (by simp [hpa])]
      exact ih h

/-- Helper: a conditional rewrite maps a list to itself when no element
satisfies the condition. -/
theorem map_ite_id_of_find?_none {α : Type} {l : List α} {p : α → Bool} {g : α → α}
    (h : l.find? p = Option.none) : (l.map fun v => if p v then g v else v) = l := by
  induction l with
  | nil => rfl
  | cons a l ih =>
    cases hpa : p a with
    | true =>
      rw [List.find?_cons_of_pos _ hpa] at h
      exact absurd h (by simp)
    | false =>
      rw [List.find?_cons_of_neg _ (by simp [hpa])] at h
      simp [hpa, ih h]

/-- Helper: upserting a payload whose handle matches the last row of the
table (and no earlier row) rewrites exactly that row and returns its
identifier. -/
theorem upsert_update_of_append (users : List UserRow) (fresh now : Nat) (p : RegPayload)
    (row : UserRow) (h : users.find? (fun u => u.username == p.username) = Option.none)
    (hrow : row.username = p.username) :
    WebappNew.upsert_user (users ++ [row]) fresh now p =
      (users ++ [WebappNew.applyUpdate row p], row.id) := by
  have hf : (users ++ [row]).find? (fun u => u.username == p.username) = some row := by
    rw [find?_append_of_none h]
    simp [List.find?, hrow]
  simp only [WebappNew.upsert_user, hf]
  rw [List.map_append, map_ite_id_of_find?_none h]
  simp [hrow]

/-- C9: enrollment is idempotent on the unique handle in `api_register` of
`webapp_new.py`.  A second register call with the same `username` succeeds
with a plain 201 (no uniqueness error), returns the same identifier as the
first call, overwrites the identity's display/profile fields with the
second call's values while keeping the handle, the identifier and
`created_at`, and appends one further image row and one further embedding
row instead of deduplicating. -/
theorem c9_idempotent (db : Db) (f1 f2 n1 n2 : Nat) (p1 p2 : RegPayload)
    (hfind : db.users.find? (fun u => u.username == p1.username) = Option.none)
    (hsame : p2.username = p1.username)
    (hd1 : p1.display_name ≠ "") (hu1 : p1.username ≠ "") (hc1 : p1.consent = true)
    (hd2 : p2.display_name ≠ "") (hc2 : p2.consent = true) :
    (WebappNew.api_register db f1 n1 (happyFlow p1)).2 =
      ⟨true, 201, Option.none, some f1⟩ ∧
    (WebappNew.api_register (WebappNew.api_register db f1 n1 (happyFlow p1)).1 f2 n2
        (happyFlow p2)).2 = ⟨true, 201, Option.none, some f1⟩ ∧
    (WebappNew.api_register (WebappNew.api_register db f1 n1 (happyFlow p1)).1 f2 n2
        (happyFlow p2)).1 =
      ⟨db.users ++ [WebappNew.applyUpdate (WebappNew.newRow f1 n1 p1) p2],
       db.images + 2, db.embeds + 2⟩ ∧
    (WebappNew.applyUpdate (WebappNew.newRow f1 n1 p1) p2).display_name = p2.display_name ∧
    (WebappNew.applyUpdate (WebappNew.newRow f1 n1 p1) p2).email = p2.email ∧
    (WebappNew.applyUpdate (WebappNew.newRow f1 n1 p1) p2).phone = p2.phone ∧
    (WebappNew.applyUpdate (WebappNew.newRow f1 n1 p1) p2).username = p1.username ∧
    (WebappNew.applyUpdate (WebappNew.newRow f1 n1 p1) p2).created_at = n1 ∧
    (WebappNew.applyUpdate (WebappNew.newRow f1 n1 p1) p2).id = f1 := by
  have hu2 : p2.username ≠ "" := by rw [hsame]; exact hu1
  have e1 : WebappNew.api_register db f1 n1 (happyFlow p1) =
      (⟨db.users ++ [WebappNew.newRow f1 n1 p1], db.images + 1, db.embeds + 1⟩,
       ⟨true, 201, Option.none, some f1⟩) := by
    simp [WebappNew.api_register, happyFlow, WebappNew.upsert_user, hfind, hd1, hu1, hc1]
  have hfind2 : db.users.find? (fun u => u.username == p2.username) = Option.none := by
    simpa only [hsame] using hfind
  have hrow : (WebappNew.newRow f1 n1 p1).username = p2.username := by
    simp [WebappNew.newRow, hsame]
  have hups2 := upsert_update_of_append db.users f2 n2 p2 (WebappNew.newRow f1 n1 p1)
    hfind2 hrow
  have hid : (WebappNew.newRow f1 n1 p1).id = f1 := rfl
  have e2 : WebappNew.api_register ⟨db.users ++ [WebappNew.newRow f1 n1 p1],
      db.images + 1, db.embeds + 1⟩ f2 n2 (happyFlow p2) =
      (⟨db.users ++ [WebappNew.applyUpdate (WebappNew.newRow f1 n1 p1) p2],
        db.images + 2, db.embeds + 2⟩, ⟨true, 201, Option.none, some f1⟩) := by
    simp [WebappNew.api_register, happyFlow, hd2, hu2, hc2, hups2, hid]
  rw [e1]
  dsimp only
  rw [e2]
  exact ⟨rfl, rfl, rfl, rfl, rfl, rfl, rfl, rfl, rfl⟩

/-- C9 witness: enrolling the handle `alice` twice from an empty store with
different display fields yields the same identifier both times, one user
row carrying the second call's fields, two image rows and two embedding
rows. -/
theorem c9_witness :
    (WebappNew.api_register ⟨[], 0, 0⟩ 1 10 (happyFlow samplePayload)).2 =
      ⟨true, 201, Option.none, some 1⟩ ∧
    (WebappNew.api_register (WebappNew.api_register ⟨[], 0, 0⟩ 1 10
        (happyFlow samplePayload)).1 2 20 (happyFlow samplePayload2)).2 =
      ⟨true, 201, Option.none, some 1⟩ ∧
    (WebappNew.api_register (WebappNew.api_register ⟨[], 0, 0⟩ 1 10
        (happyFlow samplePayload)).1 2 20 (happyFlow samplePayload2)).1 =
      ⟨[WebappNew.applyUpdate (WebappNew.newRow 1 10 samplePayload) samplePayload2], 2, 2⟩ := by
  have h := c9_idempotent ⟨[], 0, 0⟩ 1 2 10 20 samplePayload samplePayload2
    rfl rfl (by decide) (by decide) rfl (by decide) rfl
  exact ⟨h.1, h.2.1, h.2.2.1⟩
